import Mathlib

/-!
Verification of the native launcher in `src-tauri/src/main.rs` of
iechor-research/research-cli.

The launcher locates the Research CLI Node.js module on disk
(`find_node_module`), optionally infers the `RESEARCH_CLI_HOME`
environment variable for the child, and delegates execution to `node`,
forwarding arguments and exit status (`main`).

The embedding models:
- filesystem paths as an absolute-flag plus a list of components
  (mirroring Rust `std::path::Path` component semantics: repeated
  separators collapse, `parent` drops the last component, `file_name`
  of a path ending in `..` is `None`);
- the filesystem as an existence predicate `FsPath → Bool`
  (the launcher only ever calls `exists()`);
- the process environment as an association list whose values are
  either valid Unicode or not, mirroring `std::env::var`'s
  `Err(NotUnicode)` vs `Err(NotPresent)` vs `Ok` behavior;
- the child process as a `SpawnResult` describing what `cmd.status()`
  returns: `Ok` with an optional numeric exit code (`None` models
  signal termination, where `ExitStatus::code()` is `None`) or `Err`.
-/

/-- A filesystem path: whether it is absolute, and its components in
order. Mirrors Rust `Path` components (no `..` normalization). -/
structure FsPath where
  absolute : Bool
  comps : List String
deriving DecidableEq, Repr

/-- Split a character list at `/` separators. -/
def splitPathAux (cur : List Char) : List Char → List String
  | [] => [String.mk cur]
  | c :: rest =>
    if c = '/' then String.mk cur :: splitPathAux [] rest
    else splitPathAux (cur.concat c) rest

/-- Parse an OS string into a path, mirroring Rust `Path::new`:
a leading `/` makes it absolute; repeated separators and `.`
components are dropped, as Rust's component iterator does. -/
def toPath (s : String) : FsPath :=
  ⟨(match s.toList with | '/' :: _ => true | _ => false),
    (splitPathAux [] s.toList).filter (fun c => c ≠ "" && c ≠ ".")⟩

/-- `Path::join` with a relative suffix: append the suffix components. -/
def joinPath (root : FsPath) (suffix : List String) : FsPath :=
  ⟨root.absolute, root.comps ++ suffix⟩

/-- Rust `Path::parent`: drop the last component; `None` at a root
(`/`) or at an empty relative path. -/
def parentDir (p : FsPath) : Option FsPath :=
  match p.comps with
  | [] => none
  | _ :: _ => some ⟨p.absolute, p.comps.dropLast⟩

/-- Rust `Path::file_name`: the last component, unless it is `..`. -/
def fileNameOf (p : FsPath) : Option String :=
  match p.comps.getLast? with
  | none => none
  | some c => if c = ".." then none else some c

/-- An environment-variable value: valid Unicode or not.
`std::env::var` yields `Err(NotUnicode)` for the latter. -/
inductive EnvVal where
  | unicode (s : String)
  | nonUnicode
deriving DecidableEq, Repr

/-- The caller's environment: an association list from names to values. -/
abbrev Env := List (String × EnvVal)

/-- `std::env::var(k)` viewed as an `Option`: `some s` iff the variable
is present with valid Unicode value `s`. The launcher only ever
pattern-matches `Ok` or tests `is_err()`, so the two error cases
(`NotPresent`, `NotUnicode`) need not be distinguished here. -/
def envVar (e : Env) (k : String) : Option String :=
  match e.lookup k with
  | some (EnvVal.unicode s) => some s
  | _ => none

/-- The probe loop shared by the tiers of `find_node_module`: join each
relative suffix to the root in order and return the first joined path
that exists. -/
def probe (fs : FsPath → Bool) (root : FsPath) (suffixes : List (List String)) :
    Option FsPath :=
  suffixes.findSome? (fun s =>
    let m := joinPath root s
    if fs m then some m else none)

/-- The `paths_to_try` array of tier 1 (the `RESEARCH_CLI_HOME`
override tier), as relative component lists. -/
def paths_to_try : List (List String) :=
  [ ["packages", "cli", "dist", "index.js"],
    ["dist", "index.js"],
    ["cli", "dist", "index.js"],
    ["index.js"] ]

/-- The `lib_paths` array of tier 2 (executable-relative), joined to the
executable's directory. -/
def lib_paths : List (List String) :=
  [ ["..", "lib", "research-cli", "packages", "cli", "dist", "index.js"],
    ["..", "lib", "research-cli", "dist", "index.js"],
    ["..", "lib", "research-cli", "cli", "dist", "index.js"],
    ["..", "lib", "research-cli", "index.js"],
    ["lib", "research-cli", "packages", "cli", "dist", "index.js"],
    ["lib", "research-cli", "dist", "index.js"] ]

/-- The `dev_paths` array of tier 2, joined to the parent of the
executable's directory. -/
def dev_paths : List (List String) :=
  [ ["packages", "cli", "dist", "index.js"],
    ["packages", "cli", "index.js"] ]

/-- The `system_paths` array of tier 3: six fixed absolute paths. -/
def system_paths : List FsPath :=
  [ ⟨true, ["usr", "local", "lib", "research-cli", "packages", "cli", "dist", "index.js"]⟩,
    ⟨true, ["usr", "local", "lib", "research-cli", "dist", "index.js"]⟩,
    ⟨true, ["opt", "research-cli", "packages", "cli", "dist", "index.js"]⟩,
    ⟨true, ["opt", "research-cli", "dist", "index.js"]⟩,
    ⟨true, ["usr", "lib", "research-cli", "packages", "cli", "dist", "index.js"]⟩,
    ⟨true, ["usr", "lib", "research-cli", "dist", "index.js"]⟩ ]

/-- The `user_paths` suffixes of tier 4, joined to `$HOME`
(the source builds them with `format!("{HOME}/...")`, which is path
concatenation). -/
def user_suffixes : List (List String) :=
  [ [".local", "lib", "research-cli", "packages", "cli", "dist", "index.js"],
    [".local", "lib", "research-cli", "dist", "index.js"],
    [".research-cli", "packages", "cli", "dist", "index.js"],
    [".research-cli", "dist", "index.js"] ]

/-- The `win_paths` suffixes of tier 5, joined to `%APPDATA%`. -/
def win_suffixes : List (List String) :=
  [ ["research-cli", "packages", "cli", "dist", "index.js"],
    ["research-cli", "dist", "index.js"] ]

/-- What `cmd.status()` returns for the delegated run: `Ok` with the
child's `ExitStatus` (whose `code()` is `none` when the child was
terminated by a signal), or `Err` with an error message. -/
inductive SpawnResult where
  | ok (code : Option Int)
  | err (msg : String)
deriving DecidableEq, Repr

/-- The world `find_node_module` and `main` observe: environment,
current executable path (`None` models `env::current_exe()` failing),
filesystem existence, whether the target is Windows (`cfg!(windows)`),
whether `node --version` succeeds, what `cmd.status()` returns, and
the launcher's own argv (element 0 is the program name). -/
structure World where
  env : Env
  exePath : Option FsPath
  fs : FsPath → Bool
  windows : Bool
  nodeCheckOk : Bool
  spawn : SpawnResult
  argv : List String

/-- Tier 1 of `find_node_module`: if `RESEARCH_CLI_HOME` is set (to
valid Unicode), probe `paths_to_try` under it. -/
def tierOverride (w : World) : Option FsPath :=
  match envVar w.env "RESEARCH_CLI_HOME" with
  | some home => probe w.fs (toPath home) paths_to_try
  | none => none

/-- Tier 2 of `find_node_module`: from the executable's directory probe
`lib_paths`, then from that directory's parent probe `dev_paths`. -/
def tierExe (w : World) : Option FsPath :=
  match w.exePath with
  | none => none
  | some exe =>
    match parentDir exe with
    | none => none
    | some exeDir =>
      match probe w.fs exeDir lib_paths with
      | some p => some p
      | none =>
        match parentDir exeDir with
        | none => none
        | some par => probe w.fs par dev_paths

/-- Tier 3 of `find_node_module`: the first existing of the six fixed
absolute `system_paths`. -/
def tierSystem (w : World) : Option FsPath :=
  system_paths.find? w.fs

/-- Tier 4 of `find_node_module`: if `HOME` is set, probe the
`user_paths` suffixes under it. -/
def tierUser (w : World) : Option FsPath :=
  match envVar w.env "HOME" with
  | some home => probe w.fs (toPath home) user_suffixes
  | none => none

/-- Tier 5 of `find_node_module`: on Windows, if `APPDATA` is set,
probe the `win_paths` suffixes under it. -/
def tierWindows (w : World) : Option FsPath :=
  if w.windows then
    match envVar w.env "APPDATA" with
    | some appdata => probe w.fs (toPath appdata) win_suffixes
    | none => none
  else none

/-- `find_node_module`: try the five tiers in order, returning the
first match (each source block `return`s on its first hit, so later
blocks run only when every earlier block fell through). -/
def find_node_module (w : World) : Option FsPath :=
  match tierOverride w with
  | some p => some p
  | none =>
    match tierExe w with
    | some p => some p
    | none =>
      match tierSystem w with
      | some p => some p
      | none =>
        match tierUser w with
        | some p => some p
        | none => tierWindows w

/-- The install-root test of `main`'s inference loop: the directory
contains a `package.json` entry, contains a `packages` entry, or is
itself named `research-cli` (the filesystem model does not
distinguish files from directories, as the source only calls
`exists()`). -/
def isInstallRoot (fs : FsPath → Bool) (dir : FsPath) : Bool :=
  fs (joinPath dir ["package.json"]) || fs (joinPath dir ["packages"]) ||
    (fileNameOf dir == some "research-cli")

/-- The ascent of `main`'s inference loop, structured over the
REVERSED component list so the recursion is structural: test the
marker at the current directory, else drop the last component and
continue; the case of an exhausted component list is the loop's
`current.parent() == None` exit. -/
def findRootAux (fs : FsPath → Bool) (a : Bool) : List String → Option FsPath
  | [] => if isInstallRoot fs ⟨a, []⟩ then some ⟨a, []⟩ else none
  | c :: rest =>
    if isInstallRoot fs ⟨a, (c :: rest).reverse⟩ then some ⟨a, (c :: rest).reverse⟩
    else findRootAux fs a rest

/-- The `loop` of `main` lines 180–195: starting at `start`, ascend one
parent at a time and return the first directory satisfying
`isInstallRoot`, or `none` when the walk runs out of parents. -/
def findPackageRoot (fs : FsPath → Bool) (start : FsPath) : Option FsPath :=
  findRootAux fs start.absolute start.comps.reverse

/-- The `RESEARCH_CLI_HOME` value `main` sets on the child command, if
any: only when `env::var("RESEARCH_CLI_HOME")` is an error (absent or
non-Unicode) does it walk up from the module's parent directory. -/
def inferChildEnv (w : World) (modulePath : FsPath) : Option FsPath :=
  match envVar w.env "RESEARCH_CLI_HOME" with
  | some _ => none
  | none =>
    match parentDir modulePath with
    | some par => findPackageRoot w.fs par
    | none => none

/-- One argument of the child's argv: the module path (passed as a
`PathBuf`) or a forwarded string. -/
inductive ChildArg where
  | path (p : FsPath)
  | str (s : String)
deriving DecidableEq, Repr

/-- The command `main` builds for the delegate: module path, forwarded
arguments, and the single optional environment-variable override
(`cmd.env` is called at most once, so this is the whole difference
between the child's and the caller's environment; stdin, stdout and
stderr are inherited). -/
structure LaunchSpec where
  modulePath : FsPath
  extraArgs : List String
  childEnv : Option FsPath
deriving DecidableEq, Repr

/-- The child's argument vector after the program name `node`: the
module path first (`cmd.arg(&module_path)`), then the forwarded
arguments (`cmd.args(&args)`). -/
def childArgv (spec : LaunchSpec) : List ChildArg :=
  ChildArg.path spec.modulePath :: spec.extraArgs.map ChildArg.str

/-- The text `print_help_message` writes to stderr. -/
def helpMessage : List String :=
  [ "Research CLI Native Wrapper",
    "",
    "Error: Research CLI module not found!",
    "",
    "This wrapper needs to find the Research CLI Node.js module to function.",
    "",
    "Troubleshooting:",
    "1. If you installed via the complete installer, try:",
    "   export RESEARCH_CLI_HOME=/usr/local/lib/research-cli",
    "   # or",
    "   export RESEARCH_CLI_HOME=$HOME/.local/lib/research-cli",
    "",
    "2. If you're in a development environment, make sure to build first:",
    "   npm run build",
    "",
    "3. For a complete installation, run:",
    "   curl -sSL https://github.com/iechor-research/research-cli/releases/latest/download/install-complete.sh | bash",
    "",
    "4. Manual installation:",
    "   - Download research-cli-node.tar.gz from the release",
    "   - Extract it to a directory",
    "   - Set RESEARCH_CLI_HOME to that directory",
    "",
    "For more information, visit:",
    "https://github.com/iechor-research/research-cli" ]

/-- The stderr text of the `node --version` pre-check failure branch. -/
def nodeMissingMessage : List String :=
  [ "Error: Node.js is not installed or not available in PATH!",
    "",
    "Research CLI requires Node.js to function.",
    "Please install Node.js from: https://nodejs.org/",
    "",
    "Supported Node.js versions: 18.0.0 or higher" ]

/-- The stderr text of the `cmd.status()` error branch;
`e` is the spawn error's message. -/
def spawnFailMessage (e : String) : List String :=
  [ "Failed to start Research CLI: " ++ e,
    "",
    "This usually means Node.js is not properly installed.",
    "Please ensure Node.js is installed and available in your PATH.",
    "",
    "You can test Node.js installation by running:",
    "  node --version" ]

/-- The observable outcome of one launcher run: the launcher's own exit
code, whether the delegate spawn was attempted, the command built for
the delegate (`none` when the run failed before building it), and the
diagnostics the launcher wrote to stderr. -/
structure RunResult where
  exitCode : Int
  spawnAttempted : Bool
  launchSpec : Option LaunchSpec
  stderr : List String
deriving DecidableEq, Repr

/-- The launcher's `main`: resolve the module (exit 1 with the help
text if not found, never spawning), pre-check `node --version`
(exit 1 with guidance on failure, never spawning the delegate), build
the delegate command with forwarded argv[1:] and the optionally
inferred environment variable, run it, and exit with
`status.code().unwrap_or(0)` on `Ok` or 1 on a spawn `Err`. -/
def runLauncher (w : World) : RunResult :=
  match find_node_module w with
  | none =>
    { exitCode := 1, spawnAttempted := false, launchSpec := none, stderr := helpMessage }
  | some modulePath =>
    if !w.nodeCheckOk then
      { exitCode := 1, spawnAttempted := false, launchSpec := none,
        stderr := nodeMissingMessage }
    else
      let spec : LaunchSpec :=
        { modulePath := modulePath,
          extraArgs := w.argv.drop 1,
          childEnv := inferChildEnv w modulePath }
      match w.spawn with
      | SpawnResult.ok code =>
        { exitCode := code.getD 0, spawnAttempted := true, launchSpec := some spec,
          stderr := [] }
      | SpawnResult.err e =>
        { exitCode := 1, spawnAttempted := true, launchSpec := some spec,
          stderr := spawnFailMessage e }

/-- The ancestor chain of a path over its reversed component list:
the path itself, then each successive parent, ending at the root
(`⟨a, []⟩`). -/
def ancestorsAux (a : Bool) : List String → List FsPath
  | [] => [⟨a, []⟩]
  | c :: rest => ⟨a, (c :: rest).reverse⟩ :: ancestorsAux a rest

/-- The chain of directories the inference loop visits when started at
`p`: `p`, `p`'s parent, ..., down to the filesystem root. -/
def ancestors (p : FsPath) : List FsPath :=
  ancestorsAux p.absolute p.comps.reverse

/-- The three roots that `system_paths` ranges over, as named by the
spec's system tier. -/
def systemRoots : List FsPath :=
  [ ⟨true, ["usr", "local", "lib", "research-cli"]⟩,
    ⟨true, ["opt", "research-cli"]⟩,
    ⟨true, ["usr", "lib", "research-cli"]⟩ ]

/-- Example filesystem: an override-tier match under `/opt/rh` next to
a system-tier match and a user-tier match. -/
def fsPrec : List FsPath :=
  [ ⟨true, ["opt", "rh", "dist", "index.js"]⟩,
    ⟨true, ["opt", "research-cli", "dist", "index.js"]⟩,
    ⟨true, ["home", "u", ".research-cli", "dist", "index.js"]⟩ ]

/-- Example world: override tier and two later tiers all match. -/
def wPrec1 : World :=
  ⟨[("RESEARCH_CLI_HOME", EnvVal.unicode "/opt/rh"), ("HOME", EnvVal.unicode "/home/u")],
    none, fun p => decide (p ∈ fsPrec), false, true, SpawnResult.ok (some 0), ["launcher"]⟩

/-- Example world: no override variable, so the system tier and the
user tier both match and the earlier (system) one must win. -/
def wPrec3 : World :=
  ⟨[("HOME", EnvVal.unicode "/home/u")],
    none, fun p => decide (p ∈ fsPrec), false, true, SpawnResult.ok (some 0), ["launcher"]⟩

/-- Example filesystem for the probe witness: the second and fourth
override suffixes exist under `/opt/rh`. -/
def fsProbe : List FsPath :=
  [ ⟨true, ["opt", "rh", "dist", "index.js"]⟩,
    ⟨true, ["opt", "rh", "index.js"]⟩ ]

/-- Example world for exit-code passthrough: module found, node
available, delegate exits with code 17. -/
def wExit : World :=
  ⟨[("RESEARCH_CLI_HOME", EnvVal.unicode "/opt/rh")],
    none, fun p => decide (p ∈ fsProbe), false, true, SpawnResult.ok (some 17),
    ["launcher", "--flag"]⟩

/-- Example world: the delegate is terminated by a signal, so
`ExitStatus::code()` is `None`. -/
def wSignal : World :=
  ⟨[("RESEARCH_CLI_HOME", EnvVal.unicode "/opt/rh")],
    none, fun p => decide (p ∈ fsProbe), false, true, SpawnResult.ok none,
    ["launcher"]⟩

/-- Example world: nothing matches in any tier. -/
def wNotFound : World :=
  ⟨[], none, fun _ => false, false, true, SpawnResult.ok (some 0), ["launcher"]⟩

/-- Example world: module found but the `node --version` pre-check
fails. -/
def wNoNode : World :=
  ⟨[("RESEARCH_CLI_HOME", EnvVal.unicode "/opt/rh")],
    none, fun p => decide (p ∈ fsProbe), false, false, SpawnResult.ok (some 0),
    ["launcher"]⟩

/-- Example world: module found, node available, but spawning the
delegate fails. -/
def wSpawnErr : World :=
  ⟨[("RESEARCH_CLI_HOME", EnvVal.unicode "/opt/rh")],
    none, fun p => decide (p ∈ fsProbe), false, true, SpawnResult.err "boom",
    ["launcher"]⟩

/-- Example filesystem: a system-tier module whose install root is
recognizable by its directory name `research-cli`. -/
def fsOptCli : List FsPath := [⟨true, ["opt", "research-cli", "dist", "index.js"]⟩]

/-- Example world: `RESEARCH_CLI_HOME` is present but not valid
Unicode; the system tier matches and inference will find
`/opt/research-cli` by the name marker. -/
def wNonUnicode : World :=
  ⟨[("RESEARCH_CLI_HOME", EnvVal.nonUnicode)],
    none, fun p => decide (p ∈ fsOptCli), false, true, SpawnResult.ok (some 0),
    ["launcher"]⟩

/-- Example world for C10's witness: same non-Unicode override, its own
copy so the two claims stay independent. -/
def wNonUnicode10 : World :=
  ⟨[("RESEARCH_CLI_HOME", EnvVal.nonUnicode)],
    none, fun p => decide (p ∈ fsOptCli), true, true, SpawnResult.ok (some 3),
    ["launcher", "x"]⟩

/-- Example world: `RESEARCH_CLI_HOME` validly set, module found under
it; inference must not run. -/
def wOverrideSet : World :=
  ⟨[("RESEARCH_CLI_HOME", EnvVal.unicode "/opt/rh")],
    none, fun p => decide (p ∈ fsProbe), false, true, SpawnResult.ok (some 0),
    ["launcher"]⟩

/-- Example filesystem for the inference walk: a `package.json` marker
two levels above the module. -/
def fsMarker : List FsPath :=
  [ ⟨true, ["data", "app", "package.json"]⟩,
    ⟨true, ["data", "app", "dist", "index.js"]⟩ ]

/-- Example world for the inference-walk witness. -/
def wWalk : World :=
  ⟨[], none, fun p => decide (p ∈ fsMarker), false, true, SpawnResult.ok (some 0),
    ["launcher"]⟩

/-- Example world for argument forwarding: arguments with spaces,
quotes and non-ASCII text. -/
def wArgs : World :=
  ⟨[("RESEARCH_CLI_HOME", EnvVal.unicode "/opt/rh")],
    none, fun p => decide (p ∈ fsProbe), false, true, SpawnResult.ok (some 0),
    ["launcher", "a b", "\"quoted\"", "héllo→"]⟩

/-- Example filesystem: only `/opt/research-cli/index.js` exists — an
override-tier layout under a system root that the system tier does
not probe. -/
def fsC9 : List FsPath := [⟨true, ["opt", "research-cli", "index.js"]⟩]

/-- Example world for the system-tier counterexample. -/
def wC9 : World :=
  ⟨[], none, fun p => decide (p ∈ fsC9), false, true, SpawnResult.ok (some 0),
    ["launcher"]⟩

theorem probe_nil (fs : FsPath → Bool) (root : FsPath) : probe fs root [] = none := rfl

theorem probe_cons (fs : FsPath → Bool) (root : FsPath) (t : List String)
    (ts : List (List String)) :
    probe fs root (t :: ts) =
      if fs (joinPath root t) then some (joinPath root t) else probe fs root ts := by
  cases h : fs (joinPath root t) <;> simp [probe, List.findSome?_cons, h]

theorem probe_eq_none_of_all_missing (fs : FsPath → Bool) (root : FsPath) :
    ∀ suffixes : List (List String),
      (∀ t ∈ suffixes, fs (joinPath root t) = false) → probe fs root suffixes = none := by
  intro suffixes
  induction suffixes with
  | nil => intro _; exact probe_nil fs root
  | cons t ts ih =>
    intro h
    rw [probe_cons, h t (List.mem_cons_self t ts)]
    simp only [Bool.false_eq_true, if_false]
    exact ih fun u hu => h u (List.mem_cons_of_mem t hu)

theorem probe_eq_first_match (fs : FsPath → Bool) (root : FsPath) (s : List String) :
    ∀ pre post : List (List String), fs (joinPath root s) = true →
      (∀ t ∈ pre, fs (joinPath root t) = false) →
      probe fs root (pre ++ s :: post) = some (joinPath root s) := by
  intro pre
  induction pre with
  | nil =>
    intro post hs _
    rw [List.nil_append, probe_cons, hs, if_pos rfl]
  | cons t ts ih =>
    intro post hs h
    rw [List.cons_append, probe_cons, h t (List.mem_cons_self t ts)]
    simp only [Bool.false_eq_true, if_false]
    exact ih post hs fun u hu => h u (List.mem_cons_of_mem t hu)

/-- C1: For every filesystem state, if a candidate location matching an
earlier tier (override env var, executable-relative, system, user,
platform-specific, in that fixed order) exists, `find_node_module`
returns that earlier tier's match, even when locations matching later
tiers also exist: the result is determined by the first tier whose
probe succeeds, and the later tiers' outcomes never affect it. -/
theorem find_node_module_tier_precedence (w : World) (p : FsPath) :
    (tierOverride w = some p → find_node_module w = some p) ∧
    (tierOverride w = none → tierExe w = some p → find_node_module w = some p) ∧
    (tierOverride w = none → tierExe w = none → tierSystem w = some p →
      find_node_module w = some p) ∧
    (tierOverride w = none → tierExe w = none → tierSystem w = none →
      tierUser w = some p → find_node_module w = some p) ∧
    (tierOverride w = none → tierExe w = none → tierSystem w = none →
      tierUser w = none → tierWindows w = some p → find_node_module w = some p) := by
  refine ⟨?_, ?_, ?_, ?_, ?_⟩ <;> intros <;> simp only [find_node_module, *]

/-- C1 witness: in `wPrec1` the override tier, the system tier and the
user tier all match, and the override tier's path is returned; in
`wPrec3` there is no override and no executable match, so the system
tier beats the matching user tier. -/
theorem find_node_module_tier_precedence_witness :
    find_node_module wPrec1 = some ⟨true, ["opt", "rh", "dist", "index.js"]⟩ ∧
    tierSystem wPrec1 = some ⟨true, ["opt", "research-cli", "dist", "index.js"]⟩ ∧
    tierUser wPrec1 = some ⟨true, ["home", "u", ".research-cli", "dist", "index.js"]⟩ ∧
    find_node_module wPrec3 = some ⟨true, ["opt", "research-cli", "dist", "index.js"]⟩ ∧
    tierUser wPrec3 = some ⟨true, ["home", "u", ".research-cli", "dist", "index.js"]⟩ :=
  ⟨(find_node_module_tier_precedence wPrec1 ⟨true, ["opt", "rh", "dist", "index.js"]⟩).1
      (by decide),
    by decide, by decide,
    (find_node_module_tier_precedence wPrec3
        ⟨true, ["opt", "research-cli", "dist", "index.js"]⟩).2.2.1
      (by decide) (by decide) (by decide),
    by decide⟩

/-- C2: within a tier, when several suffixes joined to the root exist,
the probe returns the suffix appearing first in the declared list
(here: the suffix list split as `pre ++ s :: post` with every member
of `pre` missing); and when no suffix exists — in particular whenever
the root itself does not exist, since then no joined path exists —
the probe yields `none`, a normal value rather than an error. -/
theorem probe_first_declared_and_none (fs : FsPath → Bool) (root : FsPath)
    (s : List String) (pre post suffixes : List (List String)) :
    (fs (joinPath root s) = true → (∀ t ∈ pre, fs (joinPath root t) = false) →
      probe fs root (pre ++ s :: post) = some (joinPath root s)) ∧
    ((∀ t ∈ suffixes, fs (joinPath root t) = false) → probe fs root suffixes = none) :=
  ⟨fun hs h => probe_eq_first_match fs root s pre post hs h,
    fun h => probe_eq_none_of_all_missing fs root suffixes h⟩

/-- C2 witness: under root `/opt/rh` with `paths_to_try`, the suffixes
`dist/index.js` and `index.js` both exist and the earlier one is
returned; and with nothing on the filesystem the probe returns
`none`. -/
theorem probe_first_declared_and_none_witness :
    probe (fun p => decide (p ∈ fsProbe)) ⟨true, ["opt", "rh"]⟩ paths_to_try =
      some ⟨true, ["opt", "rh", "dist", "index.js"]⟩ ∧
    probe (fun _ => false) ⟨true, ["opt", "rh"]⟩ paths_to_try = none := by
  constructor
  · have h := (probe_first_declared_and_none (fun p => decide (p ∈ fsProbe))
      ⟨true, ["opt", "rh"]⟩ ["dist", "index.js"]
      [["packages", "cli", "dist", "index.js"]]
      [["cli", "dist", "index.js"], ["index.js"]] []).1 (by decide) (by decide)
    exact h
  · exact (probe_first_declared_and_none (fun _ => false) ⟨true, ["opt", "rh"]⟩
      [] [] [] paths_to_try).2 (by decide)

/-- C3: whenever the delegate child terminates with a numeric exit code
`c`, the launcher's own exit code equals `c` exactly
(`exit_status.code()` is `Some c` and `main` exits with
`code().unwrap_or(0) = c`). -/
theorem launcher_exit_code_passthrough (w : World) (p : FsPath) (c : Int)
    (hf : find_node_module w = some p) (hn : w.nodeCheckOk = true)
    (hs : w.spawn = SpawnResult.ok (some c)) :
    (runLauncher w).exitCode = c := by
  simp [runLauncher, hf, hn, hs]

/-- C3 witness: in `wExit` the delegate exits with code 17 and the
launcher's exit code is 17. -/
theorem launcher_exit_code_passthrough_witness :
    (runLauncher wExit).exitCode = 17 :=
  launcher_exit_code_passthrough wExit ⟨true, ["opt", "rh", "dist", "index.js"]⟩ 17
    (by decide) (by decide) (by decide)

/-- C4 counterexample: the claim says that when the child terminates
without a numeric exit code the launcher exits with a fixed FAILURE
code. In `wSignal` the module is found, node is available, and the
child terminates with `code() = None` (signal termination) — yet the
launcher exits with 0, the success code (`unwrap_or(0)` in the
source), not a failure code: its exit code is not nonzero. -/
theorem launcher_signal_fallback_counterexample :
    wSignal.spawn = SpawnResult.ok none ∧
    (runLauncher wSignal).spawnAttempted = true ∧
    (runLauncher wSignal).exitCode = 0 ∧
    ¬(runLauncher wSignal).exitCode ≠ 0 := by
  refine ⟨by decide, by decide, by decide, ?_⟩
  intro h
  exact h (by decide)

/-- C4 amended: when the child terminates without a numeric exit code,
the launcher exits with the fixed code 0 (not a failure code); and
this is the only case in which the launcher substitutes its own exit
value — whenever a numeric code `c` is available the launcher exits
with `c`. -/
theorem launcher_signal_fallback_zero (w : World) (p : FsPath)
    (hf : find_node_module w = some p) (hn : w.nodeCheckOk = true) :
    (w.spawn = SpawnResult.ok none → (runLauncher w).exitCode = 0) ∧
    (∀ c : Int, w.spawn = SpawnResult.ok (some c) → (runLauncher w).exitCode = c) := by
  constructor
  · intro hs; simp [runLauncher, hf, hn, hs]
  · intro c hs; simp [runLauncher, hf, hn, hs]

/-- C4 amended witness: in `wSignal` the child has no numeric exit code
and the launcher exits 0. -/
theorem launcher_signal_fallback_zero_witness :
    wSignal.spawn = SpawnResult.ok none ∧ (runLauncher wSignal).exitCode = 0 :=
  ⟨by decide,
    (launcher_signal_fallback_zero wSignal ⟨true, ["opt", "rh", "dist", "index.js"]⟩
        (by decide) (by decide)).1 (by decide)⟩

/-- C5: each launcher-side failure exits with code 1 after writing
diagnostics to stderr: module-not-found prints the help text and
never attempts the delegate spawn; a failed `node --version`
pre-check prints install guidance and never attempts the delegate
spawn; a spawn failure prints a diagnostic and exits 1. -/
theorem launcher_failure_paths (w : World) (p : FsPath) (e : String) :
    (find_node_module w = none →
      runLauncher w = ⟨1, false, none, helpMessage⟩ ∧ helpMessage ≠ []) ∧
    (find_node_module w = some p → w.nodeCheckOk = false →
      runLauncher w = ⟨1, false, none, nodeMissingMessage⟩ ∧ nodeMissingMessage ≠ []) ∧
    (find_node_module w = some p → w.nodeCheckOk = true → w.spawn = SpawnResult.err e →
      (runLauncher w).exitCode = 1 ∧ (runLauncher w).stderr = spawnFailMessage e ∧
        spawnFailMessage e ≠ []) := by
  refine ⟨?_, ?_, ?_⟩
  · intro hf
    exact ⟨by simp [runLauncher, hf], by decide⟩
  · intro hf hn
    exact ⟨by simp [runLauncher, hf, hn], by decide⟩
  · intro hf hn hs
    refine ⟨by simp [runLauncher, hf, hn, hs], by simp [runLauncher, hf, hn, hs], ?_⟩
    simp [spawnFailMessage]

/-- C5 witness: `wNotFound` exits 1 with the help text and no spawn;
`wNoNode` exits 1 with the node guidance and no spawn; `wSpawnErr`
exits 1 with the spawn diagnostic. -/
theorem launcher_failure_paths_witness :
    (runLauncher wNotFound = ⟨1, false, none, helpMessage⟩ ∧ helpMessage ≠ []) ∧
    (runLauncher wNoNode = ⟨1, false, none, nodeMissingMessage⟩ ∧
      nodeMissingMessage ≠ []) ∧
    ((runLauncher wSpawnErr).exitCode = 1 ∧
      (runLauncher wSpawnErr).stderr = spawnFailMessage "boom" ∧
      spawnFailMessage "boom" ≠ []) :=
  ⟨(launcher_failure_paths wNotFound ⟨true, []⟩ "").1 (by decide),
    (launcher_failure_paths wNoNode ⟨true, ["opt", "rh", "dist", "index.js"]⟩ "").2.1
      (by decide) (by decide),
    (launcher_failure_paths wSpawnErr ⟨true, ["opt", "rh", "dist", "index.js"]⟩
        "boom").2.2 (by decide) (by decide) (by decide)⟩

theorem parentDir_concat (a : Bool) (l : List String) (c : String) :
    parentDir ⟨a, l ++ [c]⟩ = some ⟨a, l⟩ := by
  cases l with
  | nil => simp [parentDir]
  | cons x xs =>
    simp only [List.cons_append, parentDir]
    rw [show x :: (xs ++ [c]) = (x :: xs) ++ [c] from rfl, List.dropLast_concat]

theorem findRootAux_eq_find (fs : FsPath → Bool) (a : Bool) :
    ∀ l : List String,
      findRootAux fs a l = (ancestorsAux a l).find? (isInstallRoot fs) := by
  intro l
  induction l with
  | nil => cases h : isInstallRoot fs ⟨a, []⟩ <;> simp [findRootAux, ancestorsAux, h]
  | cons c rest ih =>
    simp only [findRootAux, ancestorsAux, List.reverse_cons]
    cases h : isInstallRoot fs ⟨a, rest.reverse ++ [c]⟩ with
    | true => simp [h]
    | false => simp [h, ih]

theorem ancestors_eq_cons (p : FsPath) :
    ancestors p = p :: (match parentDir p with | some q => ancestors q | none => []) := by
  obtain ⟨a, comps⟩ := p
  have hrr : comps.reverse.reverse = comps := List.reverse_reverse comps
  cases hr : comps.reverse with
  | nil =>
    have hc : comps = [] := by rw [← hrr, hr, List.reverse_nil]
    subst hc
    simp [ancestors, ancestorsAux, parentDir]
  | cons c rest =>
    have hc : comps = (c :: rest).reverse := by rw [← hrr, hr]
    subst hc
    have h1 : parentDir ⟨a, (c :: rest).reverse⟩ = some ⟨a, rest.reverse⟩ := by
      rw [List.reverse_cons]
      exact parentDir_concat a rest.reverse c
    rw [h1]
    simp [ancestors, ancestorsAux, List.reverse_reverse]

theorem runLauncher_launchSpec_spec (w : World) (spec : LaunchSpec)
    (h : (runLauncher w).launchSpec = some spec) :
    find_node_module w = some spec.modulePath ∧ w.nodeCheckOk = true ∧
    spec.extraArgs = w.argv.drop 1 ∧
    spec.childEnv = inferChildEnv w spec.modulePath := by
  cases hf : find_node_module w with
  | none => simp [runLauncher, hf] at h
  | some p =>
    cases hn : w.nodeCheckOk with
    | false => simp [runLauncher, hf, hn] at h
    | true =>
      cases hsp : w.spawn with
      | ok code =>
        simp only [runLauncher, hf, hn, Bool.not_true, Bool.false_eq_true,
          if_false, hsp, Option.some.injEq] at h
        subst h
        exact ⟨rfl, rfl, rfl, rfl⟩
      | err e =>
        simp only [runLauncher, hf, hn, Bool.not_true, Bool.false_eq_true,
          if_false, hsp, Option.some.injEq] at h
        subst h
        exact ⟨rfl, rfl, rfl, rfl⟩

theorem inferChildEnv_eq_some (w : World) (p v : FsPath)
    (h : inferChildEnv w p = some v) :
    envVar w.env "RESEARCH_CLI_HOME" = none ∧
    ∃ par, parentDir p = some par ∧ findPackageRoot w.fs par = some v := by
  cases he : envVar w.env "RESEARCH_CLI_HOME" with
  | some s => rw [inferChildEnv, he] at h; simp at h
  | none =>
    rw [inferChildEnv, he] at h
    cases hp : parentDir p with
    | none => rw [hp] at h; simp at h
    | some par => rw [hp] at h; exact ⟨rfl, par, rfl, h⟩

/-- C6 counterexample: the claim says that whenever `RESEARCH_CLI_HOME`
is already set in the caller's environment, inference is not
performed and the child's value is never replaced. In `wNonUnicode`
the variable IS set (to a non-Unicode value), yet the launcher runs
inference and sets the child's `RESEARCH_CLI_HOME` to the inferred
`/opt/research-cli`, replacing the caller's setting. -/
theorem infer_overwrites_nonunicode_counterexample :
    wNonUnicode.env.lookup "RESEARCH_CLI_HOME" = some EnvVal.nonUnicode ∧
    (runLauncher wNonUnicode).launchSpec =
      some ⟨⟨true, ["opt", "research-cli", "dist", "index.js"]⟩, [],
        some ⟨true, ["opt", "research-cli"]⟩⟩ := by
  decide

/-- C6 amended: if `RESEARCH_CLI_HOME` is set to a valid Unicode value
in the caller's environment, inference is not performed and the
child's value is never replaced (the built command carries no
environment override); and the inferred value is set on the child
only when `env::var` failed (variable absent or non-Unicode) and the
upward walk from the module's parent succeeded. The `childEnv` field
is the entire difference between the child's and the caller's
environment, so nothing else is modified. -/
theorem infer_additive_when_unicode_set (w : World) :
    (∀ s, w.env.lookup "RESEARCH_CLI_HOME" = some (EnvVal.unicode s) →
      ∀ spec, (runLauncher w).launchSpec = some spec → spec.childEnv = none) ∧
    (∀ spec v, (runLauncher w).launchSpec = some spec → spec.childEnv = some v →
      envVar w.env "RESEARCH_CLI_HOME" = none ∧
      ∃ par, parentDir spec.modulePath = some par ∧
        findPackageRoot w.fs par = some v) := by
  constructor
  · intro s hset spec hspec
    have h4 := (runLauncher_launchSpec_spec w spec hspec).2.2.2
    rw [h4, inferChildEnv]
    simp [envVar, hset]
  · intro spec v hspec hv
    have h4 := (runLauncher_launchSpec_spec w spec hspec).2.2.2
    rw [h4] at hv
    exact inferChildEnv_eq_some w spec.modulePath v hv

/-- C6 amended witness: in `wOverrideSet` the variable is validly set,
the module resolves under it, and the built command's environment
override is empty. -/
theorem infer_additive_when_unicode_set_witness :
    wOverrideSet.env.lookup "RESEARCH_CLI_HOME" = some (EnvVal.unicode "/opt/rh") ∧
    LaunchSpec.childEnv ⟨⟨true, ["opt", "rh", "dist", "index.js"]⟩, [], none⟩ = none :=
  ⟨by decide,
    (infer_additive_when_unicode_set wOverrideSet).1 "/opt/rh" (by decide)
      ⟨⟨true, ["opt", "rh", "dist", "index.js"]⟩, [], none⟩ (by decide)⟩

/-- C7: environment inference starts at the resolved module's
containing directory and ascends one parent at a time (fourth
conjunct: the visited chain is the directory followed by its parent's
chain), returning the first directory satisfying any of the three
markers — a `package.json` entry, a `packages` entry, or being named
`research-cli` (first conjunct spells the marker out) — and returns
`none`, setting no variable, when the chain is exhausted with no
marker found. -/
theorem inference_walk_first_marker (w : World) (p par : FsPath)
    (hunset : envVar w.env "RESEARCH_CLI_HOME" = none)
    (hpar : parentDir p = some par) :
    (∀ d, isInstallRoot w.fs d =
      (w.fs (joinPath d ["package.json"]) || w.fs (joinPath d ["packages"]) ||
        (fileNameOf d == some "research-cli"))) ∧
    inferChildEnv w p = (ancestors par).find? (isInstallRoot w.fs) ∧
    ((∀ d ∈ ancestors par, isInstallRoot w.fs d = false) → inferChildEnv w p = none) ∧
    (∀ q : FsPath, ancestors q =
      q :: (match parentDir q with | some r => ancestors r | none => [])) := by
  have hmain : inferChildEnv w p = (ancestors par).find? (isInstallRoot w.fs) := by
    simp only [inferChildEnv, hunset, hpar]
    rw [findPackageRoot, findRootAux_eq_find, ancestors]
  refine ⟨fun d => rfl, hmain, ?_, fun q => ancestors_eq_cons q⟩
  intro hnone
  rw [hmain, List.find?_eq_none]
  intro d hd
  simp [hnone d hd]

/-- C7 witness: in `wWalk` the module is `/data/app/dist/index.js`;
the walk starts at `/data/app/dist`, finds no marker there, and stops
at `/data/app`, which contains `package.json`. -/
theorem inference_walk_first_marker_witness :
    envVar wWalk.env "RESEARCH_CLI_HOME" = none ∧
    parentDir ⟨true, ["data", "app", "dist", "index.js"]⟩ =
      some ⟨true, ["data", "app", "dist"]⟩ ∧
    inferChildEnv wWalk ⟨true, ["data", "app", "dist", "index.js"]⟩ =
      (ancestors ⟨true, ["data", "app", "dist"]⟩).find? (isInstallRoot wWalk.fs) ∧
    inferChildEnv wWalk ⟨true, ["data", "app", "dist", "index.js"]⟩ =
      some ⟨true, ["data", "app"]⟩ :=
  ⟨by decide, by decide,
    (inference_walk_first_marker wWalk ⟨true, ["data", "app", "dist", "index.js"]⟩
        ⟨true, ["data", "app", "dist"]⟩ (by decide) (by decide)).2.1,
    by decide⟩

/-- C8: the launcher's arguments `argv[1:]` are passed to the delegate
unmodified and in order (no argument added, dropped, or transformed —
the forwarded list is exactly `argv.drop 1`), immediately after the
resolved module path, which is the child's first argument. -/
theorem args_forwarded_verbatim (w : World) (spec : LaunchSpec)
    (h : (runLauncher w).launchSpec = some spec) :
    find_node_module w = some spec.modulePath ∧
    spec.extraArgs = w.argv.drop 1 ∧
    childArgv spec =
      ChildArg.path spec.modulePath :: (w.argv.drop 1).map ChildArg.str := by
  have hs := runLauncher_launchSpec_spec w spec h
  refine ⟨hs.1, hs.2.2.1, ?_⟩
  rw [childArgv, hs.2.2.1]

/-- C8 witness: arguments containing spaces, quotes and non-ASCII text
are forwarded byte-for-byte after the module path. -/
theorem args_forwarded_verbatim_witness :
    (runLauncher wArgs).launchSpec =
      some ⟨⟨true, ["opt", "rh", "dist", "index.js"]⟩,
        ["a b", "\"quoted\"", "héllo→"], none⟩ ∧
    childArgv ⟨⟨true, ["opt", "rh", "dist", "index.js"]⟩,
        ["a b", "\"quoted\"", "héllo→"], none⟩ =
      ChildArg.path ⟨true, ["opt", "rh", "dist", "index.js"]⟩ ::
        (wArgs.argv.drop 1).map ChildArg.str :=
  ⟨by decide,
    (args_forwarded_verbatim wArgs
        ⟨⟨true, ["opt", "rh", "dist", "index.js"]⟩,
          ["a b", "\"quoted\"", "héllo→"], none⟩ (by decide)).2.2⟩

/-- C9 counterexample: the claim says the system tier probes its roots
against the same relative layouts as the override tier, so that any
override-resolvable layout is also resolvable under a system root.
But `index.js` is an override-tier layout, `/opt/research-cli` is a
system root, and `/opt/research-cli/index.js` is not among the probed
`system_paths`: in `wC9` that file exists and nothing else does, yet
`find_node_module` finds nothing. -/
theorem system_tier_same_layouts_counterexample :
    ["index.js"] ∈ paths_to_try ∧
    joinPath ⟨true, ["opt", "research-cli"]⟩ ["index.js"] ∉ system_paths ∧
    wC9.fs (joinPath ⟨true, ["opt", "research-cli"]⟩ ["index.js"]) = true ∧
    find_node_module wC9 = none := by
  decide

/-- C9 amended: the system tier probes each of its three fixed absolute
roots (`/usr/local/lib/research-cli`, `/opt/research-cli`,
`/usr/lib/research-cli`) against only the FIRST TWO of the override
tier's relative layouts (`packages/cli/dist/index.js` and
`dist/index.js`); the override tier's other two layouts
(`cli/dist/index.js`, `index.js`) are not probed under system
roots. -/
theorem system_tier_probes_first_two_layouts :
    system_paths =
      systemRoots.flatMap (fun r => (paths_to_try.take 2).map (joinPath r)) := by
  decide

/-- C10: when the caller's `RESEARCH_CLI_HOME` is present but not valid
Unicode, `env::var` errors, so the launcher treats it as absent: the
override tier is skipped entirely (first conjunct), and inference is
performed — when the module resolves and the walk from its parent
finds a root, that inferred value is set on the child, replacing the
caller's non-Unicode setting (second conjunct). -/
theorem nonunicode_override_treated_absent (w : World)
    (hnu : w.env.lookup "RESEARCH_CLI_HOME" = some EnvVal.nonUnicode) :
    tierOverride w = none ∧
    (∀ spec par r, (runLauncher w).launchSpec = some spec →
      parentDir spec.modulePath = some par → findPackageRoot w.fs par = some r →
      spec.childEnv = some r) := by
  have henv : envVar w.env "RESEARCH_CLI_HOME" = none := by
    rw [envVar, hnu]
  constructor
  · rw [tierOverride, henv]
  · intro spec par r hspec hpar hroot
    have h4 := (runLauncher_launchSpec_spec w spec hspec).2.2.2
    rw [h4]
    simp only [inferChildEnv, henv, hpar]
    exact hroot

/-- C10 witness: in `wNonUnicode10` the variable is set non-Unicode;
the override tier yields nothing, the system tier resolves
`/opt/research-cli/dist/index.js`, and the child is given
`RESEARCH_CLI_HOME=/opt/research-cli`. -/
theorem nonunicode_override_treated_absent_witness :
    wNonUnicode10.env.lookup "RESEARCH_CLI_HOME" = some EnvVal.nonUnicode ∧
    tierOverride wNonUnicode10 = none ∧
    LaunchSpec.childEnv ⟨⟨true, ["opt", "research-cli", "dist", "index.js"]⟩, ["x"],
        some ⟨true, ["opt", "research-cli"]⟩⟩ =
      some ⟨true, ["opt", "research-cli"]⟩ :=
  ⟨by decide, (nonunicode_override_treated_absent wNonUnicode10 (by decide)).1,
    (nonunicode_override_treated_absent wNonUnicode10 (by decide)).2
      ⟨⟨true, ["opt", "research-cli", "dist", "index.js"]⟩, ["x"],
        some ⟨true, ["opt", "research-cli"]⟩⟩
      ⟨true, ["opt", "research-cli", "dist"]⟩ ⟨true, ["opt", "research-cli"]⟩
      (by decide) (by decide) (by decide)⟩
